import Mathlib

/-!
Verification of the Gemini SQL Query Chatbot (src/app.py) against its
specification.  The program is a single linear pipeline:
question → generated SQL → execution → result shaping → summary,
wrapped in a chat session that keeps a conversation log and a lazily
created database connection.

The shallow embedding below translates each function of src/app.py into a
Lean definition.  The two external services (the Gemini language model and
the MySQL connector) are modelled as oracle functions supplied as
parameters; their possible outcomes follow the library behaviour the code
relies on:
* every exception the mysql connector raises is an instance of
  mysql.connector.Error (the class caught at line 71 of app.py), modelled
  as PyError.mysqlError;
* the language-model call can raise an arbitrary exception, modelled as
  an Except with any PyError;
* response.text access can fail (AttributeError), modelled as Option.
-/

namespace ChatbotSql

/-- Sender of a conversation turn: the human user or the assistant.
Models the "sender" values "Human" and "AI" used in app.py. -/
inductive Sender where
  | Human
  | AI
deriving DecidableEq, Repr

/-- One entry of st.session_state.chat_history:
a dict {"sender": ..., "content": ...} (app.py lines 201 and 215). -/
structure Turn where
  sender : Sender
  content : String
deriving DecidableEq, Repr

/-- A tabular query result, modelling the pandas DataFrame produced by the
Query Executor: ordered column names and ordered rows of cells. -/
structure QueryResult where
  columns : List String
  rows : List (List String)
deriving DecidableEq, Repr

/-- `pd.DataFrame()` with no arguments (app.py line 73): the empty result
substituted on execution failure. -/
def QueryResult.emptyDf : QueryResult := ⟨[], []⟩

/-- pandas `DataFrame.empty` (used as `df_response.empty`, app.py line 156):
true iff one of the two axes has length zero. -/
def QueryResult.isEmpty (df : QueryResult) : Bool :=
  df.rows.isEmpty || df.columns.isEmpty

/-- `MAX_DISPLAY_ROWS = 10` (app.py line 14).  The constant is defined at
module scope and is referenced nowhere else in app.py. -/
def MAX_DISPLAY_ROWS : Nat := 10

/-- `table = 60` (app.py line 15): the cell-count threshold handed to
is_token_limit_exceeded at line 157. -/
def table : Nat := 60

/-- `is_token_limit_exceeded(df, table)` (app.py lines 133-135):
`total_cells = len(df) * len(df.columns); return total_cells > table`.
`len(df)` is the number of rows of the DataFrame. -/
def is_token_limit_exceeded (df : QueryResult) (t : Nat) : Bool :=
  df.rows.length * df.columns.length > t

/-- A Python exception, classified by the one distinction app.py makes:
whether it is an instance of mysql.connector.Error (the class caught at
line 71) or any other exception class. -/
inductive PyError where
  | mysqlError (msg : String)
  | otherError (msg : String)
deriving DecidableEq, Repr

/-- Outcome of pushing one SQL text through an open connection's cursor
(`cursor.execute(sql); rows = cursor.fetchall();
columns = [desc[0] for desc in cursor.description]`, app.py lines 66-68):
either a result set, or a raised database-level error.  Every failure of
execute/fetchall/description in the mysql connector is raised as a
subclass of mysql.connector.Error (syntax errors as ProgrammingError,
fetch on a statement with no result set as InterfaceError, lost
connections as OperationalError). -/
inductive ExecOutcome where
  | ok (columns : List String) (rows : List (List String))
  | dbError (msg : String)
deriving DecidableEq, Repr

/-- The connector's behaviour on this open connection: for each SQL text,
the outcome of executing it. -/
def DbSem : Type := String → ExecOutcome

/-- What one call to read_sql_query produced: the DataFrame returned,
whether st.error was shown (app.py line 72), whether the cursor was
closed, and an exception escaping past the function boundary (if any). -/
structure ReadOutcome where
  result : QueryResult
  errorReported : Bool
  cursorClosed : Bool
  raised : Option PyError
deriving DecidableEq, Repr

/-- The try block of read_sql_query (app.py lines 64-69), entered with the
cursor already created (line 65 succeeds on an open connection): executes
the SQL and builds the DataFrame, or raises the connector's error. -/
def readTryBlock (db : DbSem) (sql : String) : Except PyError QueryResult :=
  match db sql with
  | .ok cols rows => .ok ⟨cols, rows⟩
  | .dbError m => .error (.mysqlError m)

/-- The `except mysql.connector.Error` clause (app.py lines 71-73): a
mysql error is replaced by st.error reporting plus an empty DataFrame;
any other exception is not caught and keeps propagating.  The Bool
records whether st.error was shown. -/
def readExceptClause (r : Except PyError QueryResult) :
    Except PyError QueryResult × Bool :=
  match r with
  | .ok df => (.ok df, false)
  | .error (.mysqlError _) => (.ok QueryResult.emptyDf, true)
  | .error e => (.error e, false)

/-- `read_sql_query(sql, db_connection)` (app.py lines 63-76).  The
`finally: cursor.close()` clause (lines 75-76) runs on every exit path —
normal return and propagating exception alike — so cursorClosed is true
unconditionally.  (The cursor exists on every path here because
`db_connection.cursor()` succeeds on an open connection; if creation
itself failed, no cursor would have been created at all.) -/
def read_sql_query (db : DbSem) (sql : String) : ReadOutcome :=
  let handled := readExceptClause (readTryBlock db sql)
  { result :=
      match handled.1 with
      | .ok df => df
      | .error _ => QueryResult.emptyDf,
    errorReported := handled.2,
    cursorClosed := true,
    raised :=
      match handled.1 with
      | .ok _ => none
      | .error e => some e }

/-- The literal fallback string of sql_to_natural_language
(app.py line 124). -/
def fallbackSummary : String :=
  "Unable to generate summary due to an error in response format."

/-- Oracle for the summary model call (app.py lines 118-119) followed by
the `response.text` access (line 122): the call receives the prompt built
from the question, the SQL text and the sampled rows; `some t` means
`response.text` evaluated to `t`, `none` means accessing it raised
AttributeError (a malformed or absent response). -/
def SummaryModel : Type := String → String → List (List String) → Option String

/-- What one call to sql_to_natural_language did: the row sample embedded
into the prompt, and the string the call returned. -/
structure SummaryCall where
  sampleRows : List (List String)
  output : String
deriving DecidableEq, Repr

/-- `sql_to_natural_language(question, sql_query, results)`
(app.py lines 79-124): `result_sample = results.head(10).to_string()`
(line 80) samples the first 10 rows; the model is called once on the
composed prompt; `return response.text` is wrapped in
`try ... except AttributeError` returning the literal fallback
(lines 121-124). -/
def sql_to_natural_language (model : SummaryModel) (question sql_query : String)
    (results : QueryResult) : SummaryCall :=
  let result_sample := results.rows.take 10
  let responseText := model question sql_query result_sample
  { sampleRows := result_sample,
    output :=
      match responseText with
      | some t => t
      | none => fallbackSummary }

/-- `create_excel_download(df)` (app.py lines 126-131): writes the whole
DataFrame to a single-sheet workbook (`df.to_excel(writer, index=False,
sheet_name='Sheet1')`) with no row selection; modelled by the list of
rows the artifact contains. -/
def create_excel_download (df : QueryResult) : List (List String) := df.rows

/-- Oracle for `get_gemini_response(question, prompt)` (app.py lines
58-61): one model call returning SQL text, or raising an exception of
any class (no try/except surrounds the call). -/
def GenModel : Type := String → Except PyError String

/-- `get_gemini_response` itself: calls the model and returns
`response.text` with no error handling of its own. -/
def get_gemini_response (gen : GenModel) (question : String) :
    Except PyError String :=
  gen question

/-- How get_response presented the result set to the user:
the download button holding the Excel artifact (app.py lines 158-164),
the inline `st.table(df_response)` rendering of the full DataFrame
(line 166), or no tabular display at all (the empty-result branch). -/
inductive Presentation where
  | exportPath (artifactRows : List (List String))
  | inlineTable (displayedRows : List (List String))
  | noDisplay
deriving DecidableEq, Repr

/-- The literal returned by get_response on an empty result
(app.py line 171). -/
def noResultsMsg : String := "No results found or error in query execution."

/-- What one call to get_response produced: the presentation effect, the
summary-generator call it made (none when the generator was not
invoked), and the returned answer string. -/
structure GetResponseOut where
  presentation : Presentation
  summaryCall : Option SummaryCall
  answer : String
deriving DecidableEq, Repr

/-- `get_response(question, db_connection, chat_history)` (app.py lines
152-171).  The chat_history parameter is never read inside the function,
so it is omitted here.  Generation (line 153) is uncaught; execution goes
through read_sql_query; a non-empty DataFrame is presented by threshold
and then summarised; an empty DataFrame short-circuits to the literal
message with no summary call. -/
def get_response (gen : GenModel) (summ : SummaryModel) (db : DbSem)
    (question : String) : Except PyError GetResponseOut :=
  match get_gemini_response gen question with
  | .error e => .error e
  | .ok sql_query =>
    let rd := read_sql_query db sql_query
    match rd.raised with
    | some e => .error e
    | none =>
      if rd.result.isEmpty = false then
        let pres :=
          if is_token_limit_exceeded rd.result table then
            Presentation.exportPath (create_excel_download rd.result)
          else
            Presentation.inlineTable rd.result.rows
        let summary := sql_to_natural_language summ question sql_query rd.result
        .ok { presentation := pres, summaryCall := some summary,
              answer := summary.output }
      else
        .ok { presentation := .noDisplay, summaryCall := none,
              answer := noResultsMsg }

/-- Outcome of `mysql.connector.connect(...)` (app.py lines 140-145):
a fresh connection (identified by a number) or a raised
mysql.connector.Error.  Sourced from environment configuration, so
constant within a session. -/
def ConnectOutcome : Type := Except String Nat

/-- `connect_to_db()` (app.py lines 137-150), acting on the one piece of
state it touches, `st.session_state.db`.  Returns the connection handed
to the caller together with the new value of `st.session_state.db`:
if a connection is already stored it is returned unchanged; otherwise a
new connection is attempted, stored on success, and on failure st.error
is shown and None is returned (the assignment at line 146 is never
reached, so the stored field stays None). -/
def connect_to_db (connectNew : ConnectOutcome) (db0 : Option Nat) :
    Option Nat × Option Nat :=
  match db0 with
  | some c => (some c, some c)
  | none =>
    match connectNew with
    | .ok conn => (some conn, some conn)
    | .error _ => (none, none)

/-- The session state the chat script mutates: the conversation log
`st.session_state.chat_history` and the stored connection
`st.session_state.db` (app.py lines 18-22). -/
structure SessionState where
  chat_history : List Turn
  db : Option Nat
deriving DecidableEq, Repr

/-- Python `str.strip()` with no arguments: the string with leading and
trailing whitespace removed. -/
def pyStrip (s : String) : String :=
  ⟨((s.data.dropWhile Char.isWhitespace).reverse.dropWhile Char.isWhitespace).reverse⟩

/-- The `if user_query is not None and user_query.strip() != "":` handler
(app.py lines 199-215) run once over the session state.  On a non-empty
question: append the Human turn (line 201), connect (line 208); if a
connection was obtained, run get_response (line 211) — whose exceptions
are uncaught and abort the turn — and append the AI turn (line 215);
if no connection, the turn ends after the Human turn. -/
def user_query_handler (connectNew : ConnectOutcome) (gen : GenModel)
    (summ : SummaryModel) (dbSem : DbSem) (user_query : Option String)
    (s : SessionState) : Except PyError SessionState :=
  match user_query with
  | none => .ok s
  | some q =>
    if pyStrip q = "" then .ok s
    else
      let s1 : SessionState :=
        { s with chat_history := s.chat_history ++ [⟨Sender.Human, q⟩] }
      let connected := connect_to_db connectNew s1.db
      let s2 : SessionState := { s1 with db := connected.2 }
      match connected.1 with
      | none => .ok s2
      | some _ =>
        match get_response gen summ dbSem q with
        | .error e => .error e
        | .ok out =>
          .ok { s2 with
                chat_history := s2.chat_history ++ [⟨Sender.AI, out.answer⟩] }

/-- Iterated connect_to_db over a sequence of turns, tracking the stored
connection across the session. -/
def runConnects (l : List ConnectOutcome) (db0 : Option Nat) : Option Nat :=
  l.foldl (fun d cn => (connect_to_db cn d).2) db0

/-- Test fixture: a result with r rows and c columns of constant cells. -/
def mkDf (r c : Nat) : QueryResult :=
  ⟨List.replicate c "col", List.replicate r (List.replicate c "v")⟩

/-- Fixture: a generator model that always returns the given SQL text. -/
def genFixed (sql : String) : GenModel := fun _ => .ok sql

/-- Fixture: a generator model whose call raises (model unreachable). -/
def genFail : GenModel := fun _ => .error (PyError.otherError "model unreachable")

/-- Fixture: a summary model whose response text is the given string. -/
def summFixed (t : String) : SummaryModel := fun _ _ _ => some t

/-- Fixture: a summary model whose response text access fails. -/
def summNone : SummaryModel := fun _ _ _ => none

/-- Fixture: a connection semantics returning the given result for every
SQL text. -/
def dbSemOf (df : QueryResult) : DbSem := fun _ => .ok df.columns df.rows

/-- Fixture: a connection semantics raising a database error for every
SQL text (e.g. syntactically invalid SQL). -/
def dbSemErr : DbSem := fun _ => .dbError "syntax error"

/-- Fixture: a successful connection attempt. -/
def connOk : ConnectOutcome := .ok 1

/-- Helper: a completed turn of the handler.  When the question is
non-empty, a connection is obtained and get_response returns normally,
the handler appends exactly the Human turn followed by the AI turn to
the log and updates the stored connection. -/
theorem handler_completed (connectNew : ConnectOutcome) (gen : GenModel)
    (summ : SummaryModel) (dbSem : DbSem) (q : String) (s : SessionState)
    (c : Nat) (out : GetResponseOut)
    (hq : pyStrip q ≠ "")
    (hconn : (connect_to_db connectNew s.db).1 = some c)
    (hresp : get_response gen summ dbSem q = .ok out) :
    user_query_handler connectNew gen summ dbSem (some q) s =
      .ok ⟨s.chat_history ++ [⟨Sender.Human, q⟩, ⟨Sender.AI, out.answer⟩],
           (connect_to_db connectNew s.db).2⟩ := by
  simp only [user_query_handler]
  rw [if_neg hq]
  rw [hconn]
  rw [hresp]
  simp

/-- Helper: read_sql_query raises nothing past its boundary, because the
only exceptions the connector produces are mysql.connector.Error, all of
which the except clause catches. -/
theorem read_never_raises (db : DbSem) (sql : String) :
    (read_sql_query db sql).raised = none := by
  cases h : db sql <;>
    simp [read_sql_query, readExceptClause, readTryBlock, h]

/-- Claim C1: for every SQL text and open database connection,
read_sql_query either returns the query's result table or, on a
database-level error, returns an empty result; no exception escapes past
its boundary, including for syntactically invalid SQL (whose error is a
mysql.connector.Error and is caught). -/
theorem claim_C1 (db : DbSem) (sql : String) :
    (read_sql_query db sql).raised = none ∧
    (read_sql_query db sql).result =
      (match db sql with
       | .ok cols rows => ⟨cols, rows⟩
       | .dbError _ => QueryResult.emptyDf) := by
  refine ⟨read_never_raises db sql, ?_⟩
  cases h : db sql <;>
    simp [read_sql_query, readExceptClause, readTryBlock, h]

/-- Claim C2: the Result Presenter selects the export path exactly when
rows times columns is strictly greater than the threshold, inline
rendering otherwise; with threshold 60, a 10 by 7 result (70 cells) takes
the export path through get_response and a 10 by 5 result (50 cells)
takes the inline path. -/
theorem claim_C2 :
    (∀ (df : QueryResult) (t : Nat),
        is_token_limit_exceeded df t = true ↔
          df.rows.length * df.columns.length > t) ∧
    is_token_limit_exceeded (mkDf 10 7) table = true ∧
    is_token_limit_exceeded (mkDf 10 5) table = false ∧
    get_response (genFixed "SQL") (summFixed "S") (dbSemOf (mkDf 10 7)) "q" =
      .ok { presentation := .exportPath (mkDf 10 7).rows,
            summaryCall := some { sampleRows := (mkDf 10 7).rows.take 10,
                                  output := "S" },
            answer := "S" } ∧
    get_response (genFixed "SQL") (summFixed "S") (dbSemOf (mkDf 10 5)) "q" =
      .ok { presentation := .inlineTable (mkDf 10 5).rows,
            summaryCall := some { sampleRows := (mkDf 10 5).rows.take 10,
                                  output := "S" },
            answer := "S" } := by
  refine ⟨?_, by decide, by decide, rfl, rfl⟩
  intro df t
  simp [is_token_limit_exceeded]

/-- Claim C3, evaluated on the code: a 20-row, 2-column result (40 cells,
at most the threshold 60) takes the inline path and all 20 of its rows
are displayed by st.table, exceeding MAX_DISPLAY_ROWS = 10, because
MAX_DISPLAY_ROWS is never applied anywhere; the export half of the claim
does hold: the artifact always contains every row untruncated. -/
theorem claim_C3_eval :
    is_token_limit_exceeded (mkDf 20 2) table = false ∧
    get_response (genFixed "SQL") (summFixed "S") (dbSemOf (mkDf 20 2)) "q" =
      .ok { presentation := .inlineTable (mkDf 20 2).rows,
            summaryCall := some { sampleRows := (mkDf 20 2).rows.take 10,
                                  output := "S" },
            answer := "S" } ∧
    (mkDf 20 2).rows.length = 20 ∧
    20 > MAX_DISPLAY_ROWS ∧
    (∀ df : QueryResult, create_excel_download df = df.rows) :=
  ⟨by decide, rfl, by decide, by decide, fun _ => rfl⟩

/-- Claim C4: for every non-empty question whose turn completes (a
connection is obtained and the pipeline returns), the handler appends
exactly one Human turn and then exactly one AI turn to the conversation
log, and modifies the log in no other way. -/
theorem claim_C4 (connectNew : ConnectOutcome) (gen : GenModel)
    (summ : SummaryModel) (dbSem : DbSem) (q : String) (s : SessionState)
    (c : Nat) (out : GetResponseOut)
    (hq : pyStrip q ≠ "")
    (hconn : (connect_to_db connectNew s.db).1 = some c)
    (hresp : get_response gen summ dbSem q = .ok out) :
    user_query_handler connectNew gen summ dbSem (some q) s =
      .ok ⟨s.chat_history ++ [⟨Sender.Human, q⟩, ⟨Sender.AI, out.answer⟩],
           (connect_to_db connectNew s.db).2⟩ :=
  handler_completed connectNew gen summ dbSem q s c out hq hconn hresp

/-- Witness for claim C4 at a concrete completed turn. -/
theorem claim_C4_witness :
    user_query_handler connOk (genFixed "SELECT 1") (summFixed "one")
        (dbSemOf (mkDf 1 1)) (some "hi") ⟨[], none⟩ =
      .ok ⟨[⟨Sender.Human, "hi"⟩, ⟨Sender.AI, "one"⟩], some 1⟩ := by
  have h := claim_C4 connOk (genFixed "SELECT 1") (summFixed "one")
      (dbSemOf (mkDf 1 1)) "hi" ⟨[], none⟩ 1
      ⟨Presentation.inlineTable (mkDf 1 1).rows,
        some ⟨(mkDf 1 1).rows.take 10, "one"⟩, "one"⟩
      (by decide) rfl rfl
  exact h

/-- Claim C5: whenever accessing the model response text fails, the
Summary Generator returns the exact literal fallback string. -/
theorem claim_C5 (model : SummaryModel) (question sql_query : String)
    (results : QueryResult)
    (h : model question sql_query (results.rows.take 10) = none) :
    (sql_to_natural_language model question sql_query results).output =
      fallbackSummary := by
  simp [sql_to_natural_language, h]

/-- Witness for claim C5 at a concrete malformed response. -/
theorem claim_C5_witness :
    (sql_to_natural_language summNone "q" "SQL" (mkDf 2 2)).output =
      fallbackSummary :=
  claim_C5 summNone "q" "SQL" (mkDf 2 2) rfl

/-- Claim C6: on every exit path of read_sql_query — success and
execution failure alike — the cursor created for the call is closed
before the call returns, by the finally clause. -/
theorem claim_C6 (db : DbSem) (sql : String) :
    (read_sql_query db sql).cursorClosed = true := rfl

/-- Claim C7: a raising language-model call in the generation step is
caught neither in get_response nor in the surrounding handler: the
exception propagates out of get_response and aborts the whole turn. -/
theorem claim_C7 (connectNew : ConnectOutcome) (gen : GenModel)
    (summ : SummaryModel) (dbSem : DbSem) (q : String) (s : SessionState)
    (e : PyError) (c : Nat)
    (hgen : gen q = .error e) (hq : pyStrip q ≠ "")
    (hconn : (connect_to_db connectNew s.db).1 = some c) :
    get_response gen summ dbSem q = .error e ∧
    user_query_handler connectNew gen summ dbSem (some q) s = .error e := by
  have hresp : get_response gen summ dbSem q = .error e := by
    simp [get_response, get_gemini_response, hgen]
  refine ⟨hresp, ?_⟩
  simp only [user_query_handler]
  rw [if_neg hq]
  rw [hconn]
  rw [hresp]

/-- Witness for claim C7 at a concrete unreachable model. -/
theorem claim_C7_witness :
    get_response genFail (summFixed "S") (dbSemOf (mkDf 1 1)) "hi" =
      .error (PyError.otherError "model unreachable") ∧
    user_query_handler connOk genFail (summFixed "S") (dbSemOf (mkDf 1 1))
        (some "hi") ⟨[], none⟩ =
      .error (PyError.otherError "model unreachable") :=
  claim_C7 connOk genFail (summFixed "S") (dbSemOf (mkDf 1 1)) "hi" ⟨[], none⟩
    (PyError.otherError "model unreachable") 1 rfl (by decide) rfl

/-- Claim C8: connect_to_db establishes a new connection only when the
stored connection is absent, otherwise returns the stored connection
unchanged; across any sequence of turns, once a connection is stored it
is kept as is. -/
theorem claim_C8 :
    (∀ (connectNew : ConnectOutcome) (c : Nat),
        connect_to_db connectNew (some c) = (some c, some c)) ∧
    (∀ conn : Nat,
        connect_to_db (Except.ok conn) none = (some conn, some conn)) ∧
    (∀ m : String, connect_to_db (Except.error m) none = (none, none)) ∧
    (∀ (l : List ConnectOutcome) (c : Nat), runConnects l (some c) = some c) := by
  refine ⟨fun _ _ => rfl, fun _ => rfl, fun _ => rfl, ?_⟩
  intro l
  induction l with
  | nil => intro c; rfl
  | cons hd tl ih =>
    intro c
    have hstep : runConnects (hd :: tl) (some c) = runConnects tl (some c) := rfl
    rw [hstep]
    exact ih c

/-- Claim C9: on a non-empty question whose connection setup fails, the
Human turn has already been appended but no AI turn is appended, so the
log ends with an unanswered Human turn. -/
theorem claim_C9 (m : String) (gen : GenModel) (summ : SummaryModel)
    (dbSem : DbSem) (q : String) (hist : List Turn)
    (hq : pyStrip q ≠ "") :
    user_query_handler (Except.error m) gen summ dbSem (some q) ⟨hist, none⟩ =
      .ok ⟨hist ++ [⟨Sender.Human, q⟩], none⟩ ∧
    (hist ++ [(⟨Sender.Human, q⟩ : Turn)]).getLast? = some ⟨Sender.Human, q⟩ := by
  constructor
  · simp only [user_query_handler]
    rw [if_neg hq]
    rfl
  · rw [List.getLast?_append_cons]
    rfl

/-- Witness for claim C9 at a concrete failed connection. -/
theorem claim_C9_witness :
    user_query_handler (Except.error "conn refused") (genFixed "SELECT 1")
        (summFixed "one") (dbSemOf (mkDf 1 1)) (some "hi") ⟨[], none⟩ =
      .ok ⟨[⟨Sender.Human, "hi"⟩], none⟩ ∧
    ([⟨Sender.Human, "hi"⟩] : List Turn).getLast? = some ⟨Sender.Human, "hi"⟩ := by
  have h := claim_C9 "conn refused" (genFixed "SELECT 1") (summFixed "one")
      (dbSemOf (mkDf 1 1)) "hi" [] (by decide)
  exact h

/-- Claim C10: on a question whose executed result is empty, the Summary
Generator is not invoked and the AI answer appended to the log is exactly
the literal no-results string; whenever the Summary Generator is invoked
it receives the first 10 rows of the result as its sample. -/
theorem claim_C10 (connectNew : ConnectOutcome) (gen : GenModel)
    (summ : SummaryModel) (dbSem : DbSem) (s : SessionState) (c : Nat)
    (question sql_query : String)
    (hgen : gen question = .ok sql_query)
    (hempty : (read_sql_query dbSem sql_query).result.isEmpty = true)
    (hq : pyStrip question ≠ "")
    (hconn : (connect_to_db connectNew s.db).1 = some c) :
    get_response gen summ dbSem question =
      .ok ⟨Presentation.noDisplay, none, noResultsMsg⟩ ∧
    user_query_handler connectNew gen summ dbSem (some question) s =
      .ok ⟨s.chat_history ++
             [⟨Sender.Human, question⟩, ⟨Sender.AI, noResultsMsg⟩],
           (connect_to_db connectNew s.db).2⟩ ∧
    (∀ results : QueryResult,
        (sql_to_natural_language summ question sql_query results).sampleRows =
          results.rows.take 10) := by
  have hraised : (read_sql_query dbSem sql_query).raised = none :=
    read_never_raises dbSem sql_query
  have hresp : get_response gen summ dbSem question =
      .ok ⟨Presentation.noDisplay, none, noResultsMsg⟩ := by
    simp [get_response, get_gemini_response, hgen, hraised, hempty]
  refine ⟨hresp, ?_, fun results => rfl⟩
  have h := handler_completed connectNew gen summ dbSem question s c
      ⟨Presentation.noDisplay, none, noResultsMsg⟩ hq hconn hresp
  exact h

/-- Witness for claim C10 at a concrete failing query. -/
theorem claim_C10_witness :
    get_response (genFixed "SELEC") (summFixed "S") dbSemErr "q" =
      .ok ⟨Presentation.noDisplay, none, noResultsMsg⟩ ∧
    user_query_handler connOk (genFixed "SELEC") (summFixed "S") dbSemErr
        (some "q") ⟨[], none⟩ =
      .ok ⟨[⟨Sender.Human, "q"⟩, ⟨Sender.AI, noResultsMsg⟩], some 1⟩ ∧
    (sql_to_natural_language (summFixed "S") "q" "SELEC" (mkDf 12 1)).sampleRows =
      (mkDf 12 1).rows.take 10 := by
  have h := claim_C10 connOk (genFixed "SELEC") (summFixed "S") dbSemErr
      ⟨[], none⟩ 1 "q" "SELEC" rfl rfl (by decide) rfl
  exact ⟨h.1, h.2.1, h.2.2 (mkDf 12 1)⟩

end ChatbotSql
